import Mathlib

/-!
Shallow embedding of the aliklas music-API wrapper (src/main.py), centred on
the callback handler, the model-name normalizer and the two database
operations. External effects (database connection, file download, lyrics
fetch, video trigger) are supplied as an environment of Except values; a
Python exception is an Except.error carrying the message str(e). Completed
side effects are recorded in an event list.
-/

namespace Aliklas

/-- Truthiness of an optional string, as Python evaluates it: None and the
empty string are falsy, every other string is truthy. -/
def truthyO : Option String → Bool
  | none => false
  | some s => s != ""

/-- Python `a or b` on two optional strings: the first operand when it is
truthy, otherwise the second operand. -/
def pyOr (a b : Option String) : Option String :=
  if truthyO a then a else b

/-- Python str applied to an optional string: str(None) is the text None. -/
def pyStr : Option String → String
  | none => "None"
  | some s => s

/-- Python str.lower, as a per-character map (the alias set below is pure
ASCII, where this agrees with the Python method). -/
def pyLower (s : String) : String := ⟨s.data.map Char.toLower⟩

/-- Model-name normalizer from src/main.py (normalize_model): lowercase
aliases v4, v4_5, v45 map to the canonical tag V4_5; every other name passes
through unchanged. -/
def normalize_model (model : String) : String :=
  if pyLower model ∈ ["v4", "v4_5", "v45"] then "V4_5" else model

/-- Request body of the generate-music endpoint (GenerateMusicRequest). -/
structure GenerateMusicRequest where
  prompt : String
  style : Option String := none
  title : Option String := none
  instrumental : Bool := false
  customMode : Bool := false
  model : String := "V4_5"
  deriving DecidableEq

/-- Outbound JSON body sent by generate-music to the provider; style and
title are none when the corresponding key is omitted. -/
structure GenerateBody where
  prompt : String
  customMode : Bool
  instrumental : Bool
  model : String
  callBackUrl : String
  style : Option String
  title : Option String
  deriving DecidableEq

/-- Body construction in the generate-music endpoint of src/main.py: the
model field is normalized, style and title are included only when truthy. -/
def buildGenerateBody (payload : GenerateMusicRequest) (callBackUrl : String) :
    GenerateBody :=
  { prompt := payload.prompt
    customMode := payload.customMode
    instrumental := payload.instrumental
    model := normalize_model payload.model
    callBackUrl := callBackUrl
    style := if truthyO payload.style then payload.style else none
    title := if truthyO payload.title then payload.title else none }

/-- Row of the songs table. -/
structure Song where
  task_id : String
  title : Option String := none
  audio_url : Option String := none
  cover_url : Option String := none
  video_url : Option String := none
  lyrics : Option String := none
  audio_id : Option String := none
  video_task_id : Option String := none
  status : String := "pending"
  deriving DecidableEq

/-- Database state: the list of rows of the songs table. -/
abbrev DB := List Song

/-- First element of the result list in a callback payload. -/
structure Item where
  state : Option String := none
  status : Option String := none
  audioUrl : Option String := none
  audio_url : Option String := none
  streamAudioUrl : Option String := none
  videoUrl : Option String := none
  video_url : Option String := none
  resultUrl : Option String := none
  audioId : Option String := none
  imageUrl : Option String := none
  title : Option String := none
  deriving DecidableEq

/-- Parsed JSON body of a callback request. -/
structure Payload where
  taskId : Option String := none
  task_id : Option String := none
  data : Option (List Item) := none
  deriving DecidableEq

/-- Response value returned by the callback handler. -/
inductive Resp where
  | ignored
  | processing
  | alreadyProcessed
  | audioSavedVideoStarted
  | videoSaved
  | unknownCallback
  | error (msg : String)
  deriving DecidableEq

/-- Completed external side effect of one callback invocation. -/
inductive Event where
  | download (url : String) (path : String)
  | lyricsFetch
  | videoTrigger
  | dbWrite
  deriving DecidableEq

/-- Outcomes of the external operations a callback may perform: an
Except.error models the Python exception raised by that operation. -/
structure Env where
  conn : Except String Unit
  download : String → String → Except String Unit
  lyrics : Except String String
  video : Except String String
  baseUrl : String

/-- Line 147 of src/main.py: taskId, with fallback to task_id. -/
def taskIdOf (d : Payload) : Option String := pyOr d.taskId d.task_id

/-- Line 154 of src/main.py: state, with fallback to status. -/
def stateOf (i : Item) : Option String := pyOr i.state i.status

/-- Lines 159 to 163 of src/main.py: audioUrl, audio_url, streamAudioUrl. -/
def audioUrlOf (i : Item) : Option String :=
  pyOr i.audioUrl (pyOr i.audio_url i.streamAudioUrl)

/-- Lines 165 to 169 of src/main.py: videoUrl, video_url, resultUrl. -/
def videoUrlOf (i : Item) : Option String :=
  pyOr i.videoUrl (pyOr i.video_url i.resultUrl)

/-- Status of the songs row with the given task_id; none for a missing row
or a missing identifier (SQL equality with NULL matches no row). -/
def dbStatus (db : DB) : Option String → Option String
  | none => none
  | some t => (db.find? (fun s => s.task_id == t)).map (fun s => s.status)

/-- Idempotency guard of the audio branch (line 184 of src/main.py): the
row exists and its status is audio_done or done. -/
def prevGuard : Option String → Bool
  | none => false
  | some s => s == "audio_done" || s == "done"

/-- SET clause of the conflict branch of the audio-stage upsert (lines 225
to 230 of src/main.py). -/
def audioSet (localAudio lyr : String) (audioId : Option String)
    (videoTaskId : String) (s : Song) : Song :=
  { s with audio_url := some localAudio, lyrics := some lyr,
           audio_id := audioId, video_task_id := some videoTaskId,
           status := "audio_done" }

/-- SET clause of the video-stage update (lines 260 to 261 of src/main.py). -/
def videoSet (localVideo : String) (s : Song) : Song :=
  { s with video_url := some localVideo, status := "done" }

/-- Audio-stage upsert (lines 221 to 240 of src/main.py): insert a full row,
or on conflict overwrite audio_url, lyrics, audio_id, video_task_id and
force status audio_done. A missing task_id violates the primary key. -/
def upsertAudio (db : DB) (task_id : Option String) (title localAudio : String)
    (cover : Option String) (lyr : String) (audioId : Option String)
    (videoTaskId : String) : Except String DB :=
  match task_id with
  | none => .error "null value in column task_id violates not-null constraint"
  | some t =>
    if (db.find? (fun s => s.task_id == t)).isSome then
      .ok (db.map (fun s =>
        if s.task_id == t then audioSet localAudio lyr audioId videoTaskId s
        else s))
    else
      .ok (db ++ [{ task_id := t, title := some title,
                    audio_url := some localAudio, cover_url := cover,
                    video_url := none, lyrics := some lyr, audio_id := audioId,
                    video_task_id := some videoTaskId, status := "audio_done" }])

/-- Video-stage update (lines 258 to 263 of src/main.py): set video_url and
status done on every row matching task_id; zero matches is not an error. -/
def updateVideo (db : DB) (task_id : Option String) (localVideo : String) : DB :=
  match task_id with
  | none => db
  | some t => db.map (fun s =>
      if s.task_id == t then videoSet localVideo s else s)

/-- Sequencing of one fallible external operation inside the try block: on
an exception the already completed effects and the untouched database are
returned with the error response, otherwise the continuation runs. -/
def stage (r : Except String α) (evts : List Event) (db : DB)
    (k : α → Resp × DB × List Event) : Resp × DB × List Event :=
  match r with
  | .error m => (.error m, db, evts)
  | .ok a => k a

/-- Audio branch of the callback handler (lines 172 to 246 of src/main.py):
connect, idempotency guard, download mp3, fetch lyrics, trigger video,
upsert. The third component lists the effects completed before return. -/
def audioStage (task_id : Option String) (u : String) (item : Item)
    (db : DB) (env : Env) : Resp × DB × List Event :=
  stage env.conn [] db fun _ =>
    if prevGuard (dbStatus db task_id) then
      (.alreadyProcessed, db, [])
    else
      stage (env.download u ("media/" ++ pyStr task_id ++ ".mp3")) [] db fun _ =>
        stage env.lyrics [.download u ("media/" ++ pyStr task_id ++ ".mp3")] db
          fun lyr =>
          stage env.video
              [.download u ("media/" ++ pyStr task_id ++ ".mp3"), .lyricsFetch]
              db fun videoTaskId =>
            stage (upsertAudio db task_id (item.title.getD "Untitled")
                (env.baseUrl ++ "/media/" ++ pyStr task_id ++ ".mp3")
                item.imageUrl lyr item.audioId videoTaskId)
              [.download u ("media/" ++ pyStr task_id ++ ".mp3"), .lyricsFetch,
                .videoTrigger] db fun db2 =>
              (.audioSavedVideoStarted, db2,
                [.download u ("media/" ++ pyStr task_id ++ ".mp3"), .lyricsFetch,
                  .videoTrigger, .dbWrite])

/-- Video branch of the callback handler (lines 249 to 269 of src/main.py):
download mp4, connect, update the row. -/
def videoStage (task_id : Option String) (v : String) (db : DB) (env : Env) :
    Resp × DB × List Event :=
  stage (env.download v ("media/" ++ pyStr task_id ++ ".mp4")) [] db fun _ =>
    stage env.conn [.download v ("media/" ++ pyStr task_id ++ ".mp4")] db fun _ =>
      (.videoSaved,
        updateVideo db task_id (env.baseUrl ++ "/media/" ++ pyStr task_id ++ ".mp4"),
        [.download v ("media/" ++ pyStr task_id ++ ".mp4"), .dbWrite])

/-- Body of the try block of the callback handler (lines 146 to 275 of
src/main.py); every Except.error raised by a stage is already converted to
the Resp.error response here, mirroring the broad except clause. -/
def callback (d : Payload) (db : DB) (env : Env) : Resp × DB × List Event :=
  let task_id := taskIdOf d
  match d.data.getD [] with
  | [] => (.ignored, db, [])
  | item :: _ =>
    if stateOf item ≠ some "succeeded" then (.processing, db, [])
    else
      if truthyO (audioUrlOf item) then
        audioStage task_id (pyStr (audioUrlOf item)) item db env
      else if truthyO (videoUrlOf item) then
        videoStage task_id (pyStr (videoUrlOf item)) db env
      else (.unknownCallback, db, [])

/-- Whole callback endpoint: request.json() runs before the try block (line
143 of src/main.py), so a body that fails to parse propagates as an uncaught
exception instead of producing a Resp value. -/
def callback_endpoint (body : Except String Payload) (db : DB) (env : Env) :
    Except String (Resp × DB × List Event) :=
  match body with
  | .error e => .error e
  | .ok d => .ok (callback d db env)

/-- HTTP status of an endpoint outcome: a returned dict is 200, an uncaught
exception is a 500 internal server error. -/
def httpStatus : Except String (Resp × DB × List Event) → Nat
  | .ok _ => 200
  | .error _ => 500

/-- Position of a status value along pending, audio_done, done. -/
def statusRank (s : String) : Nat :=
  if s = "done" then 2 else if s = "audio_done" then 1 else 0

/-- Every exception an environment can raise carries a nonempty message. -/
def envMsgsNonempty (env : Env) : Prop :=
  (∀ m, env.conn = .error m → m ≠ "") ∧
  (∀ u p m, env.download u p = .error m → m ≠ "") ∧
  (∀ m, env.lyrics = .error m → m ≠ "") ∧
  (∀ m, env.video = .error m → m ≠ "")

/-- Environment in which every external operation succeeds. -/
def env0 : Env :=
  { conn := .ok (), download := fun _ _ => .ok (), lyrics := .ok "lyricsJson",
    video := .ok "VT1", baseUrl := "https://musik-android.onrender.com" }

/-- Audio-success callback item fixture. -/
def item0 : Item :=
  { state := some "succeeded", audioUrl := some "http://cdn/a.mp3",
    audioId := some "A1", imageUrl := some "http://cdn/c.jpg",
    title := some "Song" }

/-- Audio-success callback payload fixture for task T1. -/
def payload0 : Payload := { taskId := some "T1", data := some [item0] }

/-- Persisted row fixture for task T1 already in status audio_done. -/
def song0 : Song :=
  { task_id := "T1", title := some "Old", audio_url := some "oldAudio",
    cover_url := some "oldCover", lyrics := some "oldLyrics",
    audio_id := some "a0", video_task_id := some "v0", status := "audio_done" }

/-- Audio-success callback item fixture carrying the same values as item0
under the alias keys streamAudioUrl and status. -/
def item0b : Item :=
  { status := some "succeeded", streamAudioUrl := some "http://cdn/a.mp3",
    audioId := some "A1", imageUrl := some "http://cdn/c.jpg",
    title := some "Song" }

/-- Alias-keyed variant of payload0, keyed by task_id instead of taskId. -/
def payload0b : Payload := { task_id := some "T1", data := some [item0b] }

/-- Video-success callback item fixture. -/
def item1 : Item := { state := some "succeeded", videoUrl := some "http://cdn/v.mp4" }

/-- Video-success callback payload fixture for task T2. -/
def payload1 : Payload := { taskId := some "T2", data := some [item1] }

/-- Environment whose downloads all fail with a fixed nonempty message. -/
def envFail : Env :=
  { conn := .ok (), download := fun _ _ => .error "connection timed out",
    lyrics := .ok "lyricsJson", video := .ok "VT1",
    baseUrl := "https://musik-android.onrender.com" }

theorem stage_error {α : Type} (r : Except String α) (evts : List Event)
    (db : DB) (k : α → Resp × DB × List Event) (m : String)
    (h : r = .error m) : stage r evts db k = (.error m, db, evts) := by
  subst h
  rfl

theorem stage_ok {α : Type} (r : Except String α) (evts : List Event)
    (db : DB) (k : α → Resp × DB × List Event) (a : α)
    (h : r = .ok a) : stage r evts db k = k a := by
  subst h
  rfl

theorem stage_error_cases {α : Type} (r : Except String α) (evts : List Event)
    (db : DB) (k : α → Resp × DB × List Event) (m : String)
    (h : (stage r evts db k).1 = .error m) :
    r = .error m ∨ ∃ a, r = .ok a ∧ (k a).1 = .error m := by
  cases r with
  | error e =>
    left
    simp only [stage] at h
    cases h
    rfl
  | ok a =>
    right
    exact ⟨a, rfl, h⟩

theorem audioStage_guard (task_id : Option String) (u : String) (item : Item)
    (db : DB) (env : Env) (hconn : env.conn = .ok ())
    (hguard : prevGuard (dbStatus db task_id) = true) :
    audioStage task_id u item db env = (.alreadyProcessed, db, []) := by
  unfold audioStage
  rw [stage_ok _ _ _ _ () hconn]
  simp [hguard]

theorem updateVideo_no_match (db : DB) (tid : Option String) (v : String)
    (hnone : dbStatus db tid = none) : updateVideo db tid v = db := by
  cases tid with
  | none => rfl
  | some t =>
    simp only [updateVideo]
    simp only [dbStatus] at hnone
    rw [Option.map_eq_none'] at hnone
    rw [List.find?_eq_none] at hnone
    induction db with
    | nil => rfl
    | cons a l ih =>
      have ha : (a.task_id == t) = false := by
        have := hnone a (List.mem_cons_self a l)
        simpa using this
      simp only [List.map_cons, ha, Bool.false_eq_true, if_neg, ite_false]
      rw [ih (fun x hx => hnone x (List.mem_cons_of_mem a hx))]

/-- C6: a callback whose result list is empty or absent returns exactly the
ignored response, leaves the database unchanged and performs no side effect,
in particular no database write. -/
theorem C6_empty_result_ignored (d : Payload) (db : DB) (env : Env)
    (h : d.data.getD [] = []) :
    callback d db env = (.ignored, db, []) := by
  simp only [callback, h]

theorem C6_witness :
    callback { data := some [] } [song0] env0 = (.ignored, [song0], []) :=
  C6_empty_result_ignored { data := some [] } [song0] env0 rfl

/-- C5: a callback whose first item has an effective state other than the
success sentinel returns the processing response, leaves the database
unchanged and performs no side effect, in particular no database write. -/
theorem C5_not_succeeded_processing (d : Payload) (db : DB) (env : Env)
    (item : Item) (rest : List Item)
    (h : d.data.getD [] = item :: rest)
    (hstate : stateOf item ≠ some "succeeded") :
    callback d db env = (.processing, db, []) := by
  simp only [callback, h]
  rw [if_pos hstate]

theorem C5_witness :
    callback { taskId := some "T1", data := some [{ state := some "running" }] }
      [song0] env0 = (.processing, [song0], []) :=
  C5_not_succeeded_processing _ [song0] env0 { state := some "running" } []
    rfl (by decide)

/-- C1: a repeated audio-success callback for a task whose persisted row is
already in status audio_done or done returns the already-processed response
and performs no download, no lyrics fetch, no video trigger and no database
write. -/
theorem C1_duplicate_audio_callback_noop (d : Payload) (db : DB) (env : Env)
    (item : Item) (rest : List Item)
    (h : d.data.getD [] = item :: rest)
    (hstate : stateOf item = some "succeeded")
    (haudio : truthyO (audioUrlOf item) = true)
    (hconn : env.conn = .ok ())
    (hguard : prevGuard (dbStatus db (taskIdOf d)) = true) :
    callback d db env = (.alreadyProcessed, db, []) := by
  simp only [callback, h]
  rw [if_neg (fun hn => hn hstate), if_pos haudio]
  exact audioStage_guard (taskIdOf d) (pyStr (audioUrlOf item)) item db env hconn hguard

theorem C1_witness :
    callback payload0 [song0] env0 = (.alreadyProcessed, [song0], []) :=
  C1_duplicate_audio_callback_noop payload0 [song0] env0 item0 [] rfl
    (by decide) (by decide) rfl (by decide)

/-- C7: normalize_model returns V4_5 exactly when the lowercase form of the
input is one of v4, v4_5, v45, returns the input unchanged otherwise, and
the outbound generate-music body carries exactly the normalized model. -/
theorem C7_normalize_model_canonical (m : String) :
    (normalize_model m = "V4_5" ↔ pyLower m ∈ ["v4", "v4_5", "v45"]) ∧
    (pyLower m ∉ ["v4", "v4_5", "v45"] → normalize_model m = m) ∧
    (∀ (p : GenerateMusicRequest) (cb : String),
      (buildGenerateBody p cb).model = normalize_model p.model) := by
  refine ⟨⟨?_, ?_⟩, ?_, fun p cb => rfl⟩
  · intro hEq
    by_contra hmem
    rw [normalize_model, if_neg hmem] at hEq
    subst hEq
    exact hmem (by decide)
  · intro hmem
    rw [normalize_model, if_pos hmem]
  · intro hmem
    rw [normalize_model, if_neg hmem]

theorem C7_witness :
    normalize_model "foo" = "foo" ∧ normalize_model "V45" = "V4_5" :=
  ⟨(C7_normalize_model_canonical "foo").2.1 (by decide),
   (C7_normalize_model_canonical "V45").1.mpr (by decide)⟩

/-- C9: a request body that fails JSON parsing raises outside the try block
of the handler: the endpoint outcome is the propagated exception with HTTP
status 500, never a Resp dictionary such as the error payload. -/
theorem C9_parse_failure_uncaught :
    callback_endpoint (.error "Expecting value: line 1 column 1") [] env0
      = .error "Expecting value: line 1 column 1" ∧
    httpStatus (callback_endpoint (.error "Expecting value: line 1 column 1") [] env0)
      = 500 :=
  ⟨rfl, rfl⟩

theorem videoStage_ok (task_id : Option String) (v : String) (db : DB)
    (env : Env)
    (hdl : env.download v ("media/" ++ pyStr task_id ++ ".mp4") = .ok ())
    (hconn : env.conn = .ok ()) :
    videoStage task_id v db env =
      (.videoSaved,
       updateVideo db task_id (env.baseUrl ++ "/media/" ++ pyStr task_id ++ ".mp4"),
       [.download v ("media/" ++ pyStr task_id ++ ".mp4"), .dbWrite]) := by
  unfold videoStage
  rw [stage_ok _ _ _ _ () hdl]
  rw [stage_ok _ _ _ _ () hconn]

/-- C8: the video-stage update runs without an existence check: when no row
matches the task_id the update affects zero rows, creates no row, raises no
error, and the handler still returns the video-saved response. -/
theorem C8_video_update_no_existence_check (d : Payload) (db : DB) (env : Env)
    (item : Item) (rest : List Item) (v : String)
    (h : d.data.getD [] = item :: rest)
    (hstate : stateOf item = some "succeeded")
    (haudio : truthyO (audioUrlOf item) = false)
    (hvideo : videoUrlOf item = some v) (hv : v ≠ "")
    (hdl : env.download v ("media/" ++ pyStr (taskIdOf d) ++ ".mp4") = .ok ())
    (hconn : env.conn = .ok ())
    (hnone : dbStatus db (taskIdOf d) = none) :
    callback d db env = (.videoSaved, db,
      [.download v ("media/" ++ pyStr (taskIdOf d) ++ ".mp4"), .dbWrite]) := by
  simp only [callback, h]
  rw [if_neg (fun hn => hn hstate)]
  rw [if_neg (by simp [haudio])]
  rw [if_pos (show truthyO (videoUrlOf item) = true by
    rw [hvideo]; simp [truthyO, hv])]
  rw [hvideo]
  show videoStage (taskIdOf d) v db env = _
  rw [videoStage_ok (taskIdOf d) v db env hdl hconn]
  rw [updateVideo_no_match db (taskIdOf d) _ hnone]

theorem C8_witness :
    callback payload1 [song0] env0 = (.videoSaved, [song0],
      [.download "http://cdn/v.mp4" "media/T2.mp4", .dbWrite]) :=
  C8_video_update_no_existence_check payload1 [song0] env0 item1 []
    "http://cdn/v.mp4" rfl (by decide) (by decide) (by decide) (by decide)
    rfl rfl (by decide)

theorem audioSet_task_id (la ly : String) (ai : Option String) (vt : String)
    (s : Song) : (audioSet la ly ai vt s).task_id = s.task_id := rfl

theorem videoSet_task_id (lv : String) (s : Song) :
    (videoSet lv s).task_id = s.task_id := rfl

/-- C4 counterexample: for a payload hitting the update branch, the upsert
does overwrite the audio_url field of the existing row, so the audio field
is not set only on the insert branch as the claim states. -/
theorem C4_counterexample :
    upsertAudio [song0] (some "T1") "NewTitle" "newAudio" (some "newCover")
        "newLyrics" (some "a1") "v1"
      = .ok [{ task_id := "T1", title := some "Old",
               audio_url := some "newAudio", cover_url := some "oldCover",
               video_url := none, lyrics := some "newLyrics",
               audio_id := some "a1", video_task_id := some "v1",
               status := "audio_done" }] ∧
    song0.audio_url = some "oldAudio" ∧ song0.title = some "Old" :=
  ⟨rfl, rfl, rfl⟩

/-- C4 amended: in the audio-stage upsert only the title and cover fields
are set exclusively on the insert branch: when the row exists, the update
branch leaves title and cover_url unchanged while overwriting audio_url,
lyrics, audio_id and video_task_id and forcing status audio_done; the
insert branch sets title, cover_url and audio_url. -/
theorem C4_amended_upsert_frame (db : DB) (t ti la : String)
    (cov : Option String) (ly : String) (ai : Option String) (vt : String) :
    (∀ s, db.find? (fun r => r.task_id == t) = some s →
      ∃ db2 s2, upsertAudio db (some t) ti la cov ly ai vt = .ok db2 ∧
        db2.find? (fun r => r.task_id == t) = some s2 ∧
        s2.title = s.title ∧ s2.cover_url = s.cover_url ∧
        s2.audio_url = some la ∧ s2.lyrics = some ly ∧ s2.audio_id = ai ∧
        s2.video_task_id = some vt ∧ s2.status = "audio_done") ∧
    (db.find? (fun r => r.task_id == t) = none →
      ∃ db2 s2, upsertAudio db (some t) ti la cov ly ai vt = .ok db2 ∧
        db2.find? (fun r => r.task_id == t) = some s2 ∧
        s2.title = some ti ∧ s2.cover_url = cov ∧ s2.audio_url = some la ∧
        s2.status = "audio_done") := by
  constructor
  · intro s hs
    have hps : (s.task_id == t) = true := by
      have h' := List.find?_some hs
      exact h'
    refine ⟨db.map (fun r => if r.task_id == t then audioSet la ly ai vt r else r),
      audioSet la ly ai vt s, ?_, ?_, rfl, rfl, rfl, rfl, rfl, rfl, rfl⟩
    · simp only [upsertAudio]
      rw [hs]
      rfl
    · rw [List.find?_map]
      have hcomp : ((fun r : Song => r.task_id == t) ∘
          (fun r => if r.task_id == t then audioSet la ly ai vt r else r))
          = (fun r : Song => r.task_id == t) := by
        funext r
        by_cases hb : (r.task_id == t) = true
        · simp [Function.comp, hb, audioSet_task_id]
        · simp [Function.comp, hb]
      rw [hcomp, hs]
      simp only [Option.map_some']
      rw [if_pos hps]
  · intro hnone
    refine ⟨db ++ [({ task_id := t, title := some ti, audio_url := some la,
                      cover_url := cov, video_url := none, lyrics := some ly,
                      audio_id := ai, video_task_id := some vt,
                      status := "audio_done" } : Song)],
      ({ task_id := t, title := some ti, audio_url := some la,
         cover_url := cov, video_url := none, lyrics := some ly,
         audio_id := ai, video_task_id := some vt,
         status := "audio_done" } : Song), ?_, ?_, rfl, rfl, rfl, rfl⟩
    · simp only [upsertAudio]
      rw [hnone]
      rfl
    · rw [List.find?_append, hnone]
      simp only [Option.none_or]
      exact List.find?_cons_of_pos _ (by simp)

theorem C4_witness :
    ∃ db2 s2, upsertAudio [song0] (some "T1") "NewTitle" "newAudio"
        (some "newCover") "newLyrics" (some "a1") "v1" = .ok db2 ∧
      db2.find? (fun r => r.task_id == "T1") = some s2 ∧
      s2.title = song0.title ∧ s2.cover_url = song0.cover_url ∧
      s2.audio_url = some "newAudio" ∧ s2.lyrics = some "newLyrics" ∧
      s2.audio_id = some "a1" ∧ s2.video_task_id = some "v1" ∧
      s2.status = "audio_done" :=
  (C4_amended_upsert_frame [song0] "T1" "NewTitle" "newAudio" (some "newCover")
    "newLyrics" (some "a1") "v1").1 song0 rfl

theorem upsertAudio_error_msg (db : DB) (tid : Option String)
    (ti la : String) (cov : Option String) (ly : String) (ai : Option String)
    (vt : String) (e : String)
    (h : upsertAudio db tid ti la cov ly ai vt = .error e) :
    e = "null value in column task_id violates not-null constraint" := by
  cases tid with
  | none =>
    simp only [upsertAudio] at h
    cases h
    rfl
  | some t =>
    simp only [upsertAudio] at h
    split at h <;> simp at h

theorem audioStage_error_cases (task_id : Option String) (u : String)
    (item : Item) (db : DB) (env : Env) (m : String)
    (h : (audioStage task_id u item db env).1 = .error m) :
    env.conn = .error m ∨
    env.download u ("media/" ++ pyStr task_id ++ ".mp3") = .error m ∨
    env.lyrics = .error m ∨ env.video = .error m ∨
    m = "null value in column task_id violates not-null constraint" := by
  unfold audioStage at h
  rcases stage_error_cases _ _ _ _ _ h with hc | ⟨a, hc, h⟩
  · exact Or.inl hc
  · by_cases hg : prevGuard (dbStatus db task_id) = true
    · rw [if_pos hg] at h
      simp at h
    · rw [if_neg hg] at h
      rcases stage_error_cases _ _ _ _ _ h with hd | ⟨b, hd, h⟩
      · exact Or.inr (Or.inl hd)
      · rcases stage_error_cases _ _ _ _ _ h with hl | ⟨lyr, hl, h⟩
        · exact Or.inr (Or.inr (Or.inl hl))
        · rcases stage_error_cases _ _ _ _ _ h with hv | ⟨vt, hv, h⟩
          · exact Or.inr (Or.inr (Or.inr (Or.inl hv)))
          · rcases stage_error_cases _ _ _ _ _ h with hu | ⟨db2, hu, h⟩
            · exact Or.inr (Or.inr (Or.inr (Or.inr
                (upsertAudio_error_msg _ _ _ _ _ _ _ _ _ hu))))
            · simp at h

theorem videoStage_error_cases (task_id : Option String) (v : String)
    (db : DB) (env : Env) (m : String)
    (h : (videoStage task_id v db env).1 = .error m) :
    env.download v ("media/" ++ pyStr task_id ++ ".mp4") = .error m ∨
    env.conn = .error m := by
  unfold videoStage at h
  rcases stage_error_cases _ _ _ _ _ h with hd | ⟨a, hd, h⟩
  · exact Or.inl hd
  · rcases stage_error_cases _ _ _ _ _ h with hc | ⟨b, hc, h⟩
    · exact Or.inr hc
    · simp at h

theorem callback_error_cases (d : Payload) (db : DB) (env : Env) (m : String)
    (h : (callback d db env).1 = .error m) :
    env.conn = .error m ∨ (∃ u p, env.download u p = .error m) ∨
    env.lyrics = .error m ∨ env.video = .error m ∨
    m = "null value in column task_id violates not-null constraint" := by
  unfold callback at h
  rcases hitems : d.data.getD [] with _ | ⟨item, rest⟩
  · rw [hitems] at h
    simp at h
  · rw [hitems] at h
    dsimp only at h
    by_cases hstate : stateOf item ≠ some "succeeded"
    · rw [if_pos hstate] at h
      simp at h
    · rw [if_neg hstate] at h
      by_cases haudio : truthyO (audioUrlOf item) = true
      · rw [if_pos haudio] at h
        rcases audioStage_error_cases _ _ _ _ _ _ h with hc | hd | hl | hv | hm
        · exact Or.inl hc
        · exact Or.inr (Or.inl ⟨_, _, hd⟩)
        · exact Or.inr (Or.inr (Or.inl hl))
        · exact Or.inr (Or.inr (Or.inr (Or.inl hv)))
        · exact Or.inr (Or.inr (Or.inr (Or.inr hm)))
      · rw [if_neg haudio] at h
        by_cases hvideo : truthyO (videoUrlOf item) = true
        · rw [if_pos hvideo] at h
          rcases videoStage_error_cases _ _ _ _ _ h with hd | hc
          · exact Or.inr (Or.inl ⟨_, _, hd⟩)
          · exact Or.inl hc
        · rw [if_neg hvideo] at h
          simp at h

/-- C2: the request body once parsed, every exception thrown during stage
processing is caught: the endpoint answers HTTP 200, and whenever the
response is the error form its message is the text of the thrown exception,
nonempty as long as every exception the environment can raise carries a
nonempty message. -/
theorem C2_exceptions_caught (d : Payload) (db : DB) (env : Env)
    (hne : envMsgsNonempty env) :
    httpStatus (callback_endpoint (.ok d) db env) = 200 ∧
    (∀ m, (callback d db env).1 = .error m → m ≠ "") := by
  obtain ⟨hconn, hdl, hlyr, hvid⟩ := hne
  refine ⟨rfl, fun m h => ?_⟩
  rcases callback_error_cases d db env m h with hc | ⟨u, p, hd⟩ | hl | hv | hm
  · exact hconn m hc
  · exact hdl u p m hd
  · exact hlyr m hl
  · exact hvid m hv
  · subst hm
    decide

theorem C2_witness :
    httpStatus (callback_endpoint (.ok payload0) [] envFail) = 200 ∧
    (∀ m, (callback payload0 [] envFail).1 = .error m → m ≠ "") :=
  C2_exceptions_caught payload0 [] envFail
    ⟨fun m hm => by simp [envFail] at hm,
     fun u p m hm => by
       simp only [envFail] at hm
       cases hm
       decide,
     fun m hm => by simp [envFail] at hm,
     fun m hm => by simp [envFail] at hm⟩

theorem dbStatus_map_cond (db : DB) (t0 t : String) (f : Song → Song)
    (c : String) (hf : ∀ r, (f r).task_id = r.task_id)
    (hc : ∀ r, (f r).status = c) (s : String)
    (h : dbStatus db (some t) = some s) :
    dbStatus (db.map (fun r => if r.task_id == t0 then f r else r)) (some t)
      = some (if t0 = t then c else s) := by
  simp only [dbStatus] at h ⊢
  rw [List.find?_map]
  have hcomp : ((fun r : Song => r.task_id == t) ∘
      (fun r => if r.task_id == t0 then f r else r))
      = (fun r : Song => r.task_id == t) := by
    funext r
    by_cases hb : (r.task_id == t0) = true
    · simp [Function.comp, hb, hf]
    · simp [Function.comp, hb]
  rw [hcomp]
  rcases hfind : db.find? (fun r => r.task_id == t) with _ | s1
  · rw [hfind] at h
    simp at h
  · rw [hfind] at h
    rw [hfind]
    simp only [Option.map_some'] at h ⊢
    have heq : s1.task_id = t := by
      have h' := List.find?_some hfind
      simpa using h'
    by_cases he : t0 = t
    · subst he
      rw [if_pos rfl]
      rw [if_pos (show (s1.task_id == t0) = true by simp [heq])]
      rw [hc]
    · rw [if_neg he]
      have hb : (s1.task_id == t0) = false := by
        rw [heq]
        exact beq_eq_false_iff_ne.mpr fun hcontra => he hcontra.symm
      rw [hb]
      simpa using h

theorem dbStatus_updateVideo (db : DB) (tid : Option String) (lv : String)
    (t s : String) (h : dbStatus db (some t) = some s) :
    dbStatus (updateVideo db tid lv) (some t)
      = some (if tid = some t then "done" else s) := by
  cases tid with
  | none =>
    simpa [updateVideo] using h
  | some t0 =>
    simp only [updateVideo]
    have hmap := dbStatus_map_cond db t0 t (videoSet lv) "done"
      (fun r => rfl) (fun r => rfl) s h
    simpa using hmap

theorem dbStatus_upsertAudio (db : DB) (tid : Option String) (ti la : String)
    (cov : Option String) (ly : String) (ai : Option String) (vt : String)
    (db2 : DB) (hok : upsertAudio db tid ti la cov ly ai vt = .ok db2)
    (t s : String) (h : dbStatus db (some t) = some s) :
    dbStatus db2 (some t) = some (if tid = some t then "audio_done" else s) := by
  cases tid with
  | none => simp [upsertAudio] at hok
  | some t0 =>
    simp only [upsertAudio] at hok
    by_cases hex : (db.find? (fun r => r.task_id == t0)).isSome = true
    · rw [if_pos hex] at hok
      cases hok
      have hmap := dbStatus_map_cond db t0 t (audioSet la ly ai vt) "audio_done"
        (fun r => rfl) (fun r => rfl) s h
      simpa using hmap
    · rw [if_neg hex] at hok
      cases hok
      have hne : ¬(t0 = t) := by
        intro he
        subst he
        simp only [dbStatus] at h
        rcases hfind : db.find? (fun r => r.task_id == t0) with _ | s1
        · rw [hfind] at h
          simp at h
        · exact hex (by rw [hfind]; rfl)
      simp only [dbStatus] at h ⊢
      rw [List.find?_append]
      rcases hfind : db.find? (fun r => r.task_id == t) with _ | s1
      · rw [hfind] at h
        simp at h
      · rw [hfind] at h
        rw [hfind]
        rw [if_neg (fun hcontra => hne (Option.some.inj hcontra))]
        exact h

theorem audioStage_dbStatus (task_id : Option String) (u : String)
    (item : Item) (db : DB) (env : Env) (t s : String)
    (h : dbStatus db (some t) = some s) :
    ∃ s2, dbStatus (audioStage task_id u item db env).2.1 (some t) = some s2 ∧
      (s2 = s ∨ (s2 = "audio_done" ∧ s ≠ "audio_done" ∧ s ≠ "done")) := by
  unfold audioStage
  cases env.conn with
  | error e => exact ⟨s, h, Or.inl rfl⟩
  | ok u0 =>
    simp only [stage]
    by_cases hg : prevGuard (dbStatus db task_id) = true
    · rw [if_pos hg]
      exact ⟨s, h, Or.inl rfl⟩
    · rw [if_neg hg]
      cases env.download u ("media/" ++ pyStr task_id ++ ".mp3") with
      | error e => exact ⟨s, h, Or.inl rfl⟩
      | ok u1 =>
        simp only [stage]
        cases env.lyrics with
        | error e => exact ⟨s, h, Or.inl rfl⟩
        | ok lyr =>
          simp only [stage]
          cases env.video with
          | error e => exact ⟨s, h, Or.inl rfl⟩
          | ok vtid =>
            simp only [stage]
            rcases hu : upsertAudio db task_id (item.title.getD "Untitled")
                (env.baseUrl ++ "/media/" ++ pyStr task_id ++ ".mp3")
                item.imageUrl lyr item.audioId vtid with e | db2
            · exact ⟨s, h, Or.inl rfl⟩
            · simp only [stage]
              refine ⟨if task_id = some t then "audio_done" else s,
                dbStatus_upsertAudio db task_id _ _ _ _ _ _ db2 hu t s h, ?_⟩
              by_cases he : task_id = some t
              · rw [if_pos he]
                subst he
                rw [h] at hg
                simp only [prevGuard, Bool.or_eq_true, beq_iff_eq] at hg
                push_neg at hg
                exact Or.inr ⟨rfl, hg.1, hg.2⟩
              · rw [if_neg he]
                exact Or.inl rfl

theorem videoStage_dbStatus (task_id : Option String) (v : String)
    (db : DB) (env : Env) (t s : String)
    (h : dbStatus db (some t) = some s) :
    ∃ s2, dbStatus (videoStage task_id v db env).2.1 (some t) = some s2 ∧
      (s2 = s ∨ s2 = "done") := by
  unfold videoStage
  cases env.download v ("media/" ++ pyStr task_id ++ ".mp4") with
  | error e => exact ⟨s, h, Or.inl rfl⟩
  | ok u1 =>
    simp only [stage]
    cases env.conn with
    | error e => exact ⟨s, h, Or.inl rfl⟩
    | ok u2 =>
      simp only [stage]
      refine ⟨if task_id = some t then "done" else s,
        dbStatus_updateVideo db task_id _ t s h, ?_⟩
      by_cases he : task_id = some t
      · rw [if_pos he]
        exact Or.inr rfl
      · rw [if_neg he]
        exact Or.inl rfl

/-- C3: a processed callback never moves a persisted row backward: a row in
done stays done, a row in audio_done never returns to pending, and over the
statuses pending, audio_done, done the rank is monotone, for every payload
and environment, hence along any sequence of callbacks processed one at a
time. -/
theorem C3_status_monotone (d : Payload) (db : DB) (env : Env) (t s : String)
    (h : dbStatus db (some t) = some s) :
    ∃ s2, dbStatus (callback d db env).2.1 (some t) = some s2 ∧
      (s = "done" → s2 = "done") ∧
      (s = "audio_done" → s2 ≠ "pending") ∧
      ((s = "pending" ∨ s = "audio_done" ∨ s = "done") →
        statusRank s ≤ statusRank s2) := by
  have key : ∃ s2, dbStatus (callback d db env).2.1 (some t) = some s2 ∧
      (s2 = s ∨ (s2 = "audio_done" ∧ s ≠ "audio_done" ∧ s ≠ "done") ∨
        s2 = "done") := by
    unfold callback
    cases hitems : d.data.getD [] with
    | nil => exact ⟨s, h, Or.inl rfl⟩
    | cons item rest =>
      dsimp only
      by_cases hstate : stateOf item ≠ some "succeeded"
      · rw [if_pos hstate]
        exact ⟨s, h, Or.inl rfl⟩
      · rw [if_neg hstate]
        by_cases haudio : truthyO (audioUrlOf item) = true
        · rw [if_pos haudio]
          obtain ⟨s2, hs2, hca⟩ := audioStage_dbStatus (taskIdOf d)
            (pyStr (audioUrlOf item)) item db env t s h
          exact ⟨s2, hs2, hca.imp id Or.inl⟩
        · rw [if_neg haudio]
          by_cases hvideo : truthyO (videoUrlOf item) = true
          · rw [if_pos hvideo]
            obtain ⟨s2, hs2, hcv⟩ := videoStage_dbStatus (taskIdOf d)
              (pyStr (videoUrlOf item)) db env t s h
            exact ⟨s2, hs2, hcv.imp id (fun hd => Or.inr hd)⟩
          · rw [if_neg hvideo]
            exact ⟨s, h, Or.inl rfl⟩
  obtain ⟨s2, hs2, hcase⟩ := key
  refine ⟨s2, hs2, ?_, ?_, ?_⟩
  · intro hdone
    rcases hcase with rfl | ⟨_, _, hne⟩ | rfl
    · exact hdone
    · exact absurd hdone hne
    · rfl
  · intro had
    rcases hcase with rfl | ⟨h1, h2, _⟩ | rfl
    · rw [had]
      decide
    · exact absurd had h2
    · decide
  · intro htriple
    rcases hcase with rfl | ⟨h1, h2, h3⟩ | rfl
    · exact le_refl _
    · rw [h1]
      rcases htriple with rfl | rfl | rfl
      · decide
      · exact absurd rfl h2
      · exact absurd rfl h3
    · rcases htriple with rfl | rfl | rfl <;> decide

theorem C3_witness :
    ∃ s2, dbStatus (callback payload0 [song0] env0).2.1 (some "T1") = some s2 ∧
      ("audio_done" = "done" → s2 = "done") ∧
      ("audio_done" = "audio_done" → s2 ≠ "pending") ∧
      (("audio_done" = "pending" ∨ "audio_done" = "audio_done" ∨
        "audio_done" = "done") → statusRank "audio_done" ≤ statusRank s2) :=
  C3_status_monotone payload0 [song0] env0 "T1" "audio_done" rfl

theorem audioStage_congr (task_id : Option String) (u : String) (i1 i2 : Item)
    (db : DB) (env : Env) (hti : i1.title = i2.title)
    (himg : i1.imageUrl = i2.imageUrl) (haid : i1.audioId = i2.audioId) :
    audioStage task_id u i1 db env = audioStage task_id u i2 db env := by
  unfold audioStage
  rw [hti, himg, haid]

/-- C10: the callback reads the task id through taskId then task_id, the
item state through state then status, the audio URL through audioUrl then
audio_url then streamAudioUrl and the video URL through videoUrl then
video_url then resultUrl, each chain tried in that order under Python
truthiness; two payloads whose extracted values and remaining used fields
agree are handled identically, so the branch taken is the same whichever
alias key carries the value. -/
theorem C10_alias_keys (d1 d2 : Payload) (i1 i2 : Item) (r1 r2 : List Item)
    (db : DB) (env : Env)
    (h1 : d1.data.getD [] = i1 :: r1) (h2 : d2.data.getD [] = i2 :: r2)
    (htask : taskIdOf d1 = taskIdOf d2)
    (hstate : stateOf i1 = stateOf i2)
    (haudio : audioUrlOf i1 = audioUrlOf i2)
    (hvideo : videoUrlOf i1 = videoUrlOf i2)
    (haid : i1.audioId = i2.audioId) (himg : i1.imageUrl = i2.imageUrl)
    (hti : i1.title = i2.title) :
    callback d1 db env = callback d2 db env ∧
    (∀ p : Payload, truthyO p.taskId = true → taskIdOf p = p.taskId) ∧
    (∀ p : Payload, truthyO p.taskId = false → taskIdOf p = p.task_id) ∧
    (∀ i : Item, truthyO i.state = true → stateOf i = i.state) ∧
    (∀ i : Item, truthyO i.state = false → stateOf i = i.status) ∧
    (∀ i : Item, truthyO i.audioUrl = true → audioUrlOf i = i.audioUrl) ∧
    (∀ i : Item, truthyO i.audioUrl = false → truthyO i.audio_url = true →
      audioUrlOf i = i.audio_url) ∧
    (∀ i : Item, truthyO i.audioUrl = false → truthyO i.audio_url = false →
      audioUrlOf i = i.streamAudioUrl) ∧
    (∀ i : Item, truthyO i.videoUrl = true → videoUrlOf i = i.videoUrl) ∧
    (∀ i : Item, truthyO i.videoUrl = false → truthyO i.video_url = true →
      videoUrlOf i = i.video_url) ∧
    (∀ i : Item, truthyO i.videoUrl = false → truthyO i.video_url = false →
      videoUrlOf i = i.resultUrl) := by
  refine ⟨?_,
    fun p hp => by simp [taskIdOf, pyOr, hp],
    fun p hp => by simp [taskIdOf, pyOr, hp],
    fun i hi => by simp [stateOf, pyOr, hi],
    fun i hi => by simp [stateOf, pyOr, hi],
    fun i hi => by simp [audioUrlOf, pyOr, hi],
    fun i hi hj => by simp [audioUrlOf, pyOr, hi, hj],
    fun i hi hj => by simp [audioUrlOf, pyOr, hi, hj],
    fun i hi => by simp [videoUrlOf, pyOr, hi],
    fun i hi hj => by simp [videoUrlOf, pyOr, hi, hj],
    fun i hi hj => by simp [videoUrlOf, pyOr, hi, hj]⟩
  unfold callback
  rw [h1, h2]
  dsimp only
  rw [htask, hstate, haudio, hvideo,
    audioStage_congr (taskIdOf d2) (pyStr (audioUrlOf i2)) i1 i2 db env
      hti himg haid]

theorem C10_witness :
    callback payload0 [] env0 = callback payload0b [] env0 :=
  (C10_alias_keys payload0 payload0b item0 item0b [] [] [] env0
    rfl rfl rfl rfl rfl rfl rfl rfl rfl).1

end Aliklas
